import Mathlib

/-!
Verification of the register-abstraction core of riscv-openocd-matrix
(`src/target/riscv/riscv_reg_impl.h`): the cacheability policy
`riscv_reg_impl_gdb_regno_cacheable`, the initialization check
`riscv_reg_impl_is_initialized`, and the vector/matrix type-descriptor
builders `riscv_reg_impl_init_vector_reg_type`,
`riscv_reg_impl_init_matrix_reg_type_inner` and
`riscv_reg_impl_init_matrix_reg_type`.
-/

/-- Modelled from the spec: the declaration of `enum gdb_regno` lives in
`gdb_regs.h`, which is not part of this subsystem's source. Register numbers
are represented by their architectural identity, following the spec's
classification: the hard-wired zero register; the general-purpose registers
x1..x31 (`XPR i` stands for x(i+1), so the whole GPR file is `ZERO` plus
`XPR`); the program counter; floating-point registers FPR0..FPR31; vector
data registers V0..V31; matrix tile registers TR0..TR7 and accumulator
registers ACC0..ACC7; the named CSRs that the source's `switch` statement
distinguishes; the virtual privilege register; and `OTHER n` for any other
register number (e.g. an arbitrary CSR). The source's numeric range tests
(`regno <= GDB_REGNO_XPR31`, `GDB_REGNO_FPR0 <= regno && regno <=
GDB_REGNO_FPR31`, ...) become identity tests on the constructors. -/
inductive GdbRegno where
  | ZERO
  | XPR (i : Fin 31)
  | PC
  | FPR (i : Fin 32)
  | V (i : Fin 32)
  | TR (i : Fin 8)
  | ACC (i : Fin 8)
  | DPC
  | VSTART
  | VXSAT
  | VXRM
  | VLENB
  | VL
  | VTYPE
  | MSTART
  | MCSR
  | MTYPE
  | MTILEM
  | MTILEN
  | MTILEK
  | MLENB
  | MRLENB
  | MAMUL
  | MISA
  | DCSR
  | DSCRATCH0
  | MSTATUS
  | MEPC
  | MCAUSE
  | SATP
  | TSELECT
  | TDATA1
  | TDATA2
  | PRIV
  | OTHER (n : Nat)
deriving DecidableEq

/-- The test `regno <= GDB_REGNO_XPR31`: the register is in the
general-purpose file (the zero register is x0, so it is in this range). -/
def GdbRegno.inGprRange : GdbRegno → Bool
  | .ZERO => true
  | .XPR _ => true
  | _ => false

/-- The test `regno >= GDB_REGNO_FPR0 && regno <= GDB_REGNO_FPR31`. -/
def GdbRegno.inFprRange : GdbRegno → Bool
  | .FPR _ => true
  | _ => false

/-- The test `regno >= GDB_REGNO_V0 && regno <= GDB_REGNO_V31`. -/
def GdbRegno.inVectorRange : GdbRegno → Bool
  | .V _ => true
  | _ => false

/-- The test `regno >= GDB_REGNO_TR0 && regno <= GDB_REGNO_TR7`. -/
def GdbRegno.inTileRange : GdbRegno → Bool
  | .TR _ => true
  | _ => false

/-- The test `regno >= GDB_REGNO_ACC0 && regno <= GDB_REGNO_ACC7`. -/
def GdbRegno.inAccRange : GdbRegno → Bool
  | .ACC _ => true
  | _ => false

/-- Source `riscv_reg_impl.h` lines 301-356, function
`riscv_reg_impl_gdb_regno_cacheable`. If `is_write` is true: return true iff
the register is guaranteed to contain exactly the value just written when it
is next read. If `is_write` is false: return true iff the register is
guaranteed to read the same value in the future as the value just read. -/
def riscv_reg_impl_gdb_regno_cacheable (regno : GdbRegno) (is_write : Bool) :
    Bool :=
  if regno = GdbRegno.ZERO then
    !is_write
  else if regno.inGprRange || regno.inFprRange || regno.inVectorRange then
    true
  else if regno.inTileRange || regno.inAccRange then
    true
  else
    match regno with
    | .DPC | .VSTART | .VXSAT | .VXRM | .VLENB | .VL | .VTYPE
    | .MSTART | .MCSR | .MTYPE | .MTILEM | .MTILEN | .MTILEK
    | .MLENB | .MRLENB | .MAMUL | .MISA | .DCSR | .DSCRATCH0
    | .MSTATUS | .MEPC | .MCAUSE | .SATP => !is_write
    | .TSELECT | .TDATA1 | .TDATA2 => false
    | _ => false

/-- The fixed enumerated set of WARL CSRs listed by the `switch` statement
(source lines 321-343): stable until the debugger itself changes them. -/
def riscv_stable_csrs : List GdbRegno :=
  [.DPC, .VSTART, .VXSAT, .VXRM, .VLENB, .VL, .VTYPE,
   .MSTART, .MCSR, .MTYPE, .MTILEM, .MTILEN, .MTILEK,
   .MLENB, .MRLENB, .MAMUL, .MISA, .DCSR, .DSCRATCH0,
   .MSTATUS, .MEPC, .MCAUSE, .SATP]

/-- A register number that none of the policy's classes cover: it falls to
the `default` label of the `switch` (source lines 353-354). -/
def GdbRegno.isUnclassified : GdbRegno → Bool
  | .PC => true
  | .PRIV => true
  | .OTHER _ => true
  | _ => false

/-- Modelled from the spec: the probed hardware length parameters supplied by
the configuration collaborator (spec section 6). The accessors
`riscv_vlenb`, `riscv_mlenb`, `riscv_mrlenb` and `riscv_mamul` used by the
source are declared outside this subsystem, so the target is represented by
the four probed values directly. -/
structure Target where
  vlenb : Nat
  mlenb : Nat
  mrlenb : Nat
  mamul : Nat
deriving DecidableEq

/-- Probed vector register byte length of the target (`riscv_vlenb`). -/
def riscv_vlenb (target : Target) : Nat := target.vlenb

/-- Probed matrix tile byte length of the target (`riscv_mlenb`). -/
def riscv_mlenb (target : Target) : Nat := target.mlenb

/-- Probed matrix row byte length of the target (`riscv_mrlenb`). -/
def riscv_mrlenb (target : Target) : Nat := target.mrlenb

/-- Probed matrix accumulator multiplier of the target (`riscv_mamul`). -/
def riscv_mamul (target : Target) : Nat := target.mamul

/-- Modelled from the spec: `riscv_reg_info_t` is declared outside this
subsystem; the source only examines its `target` back-reference (the owning
target, a pointer that may be null before initialization). -/
structure RiscvRegInfo where
  target : Option Target
deriving DecidableEq

/-- Modelled from the spec: `struct reg` is declared in `target/register.h`,
outside this subsystem. Following the spec's RegisterEntry data model, the
entry carries the fields the source examines: the gdb feature/type
descriptor pointer (its id when set), the owned value buffer (present iff
the register exists), the `exist`, `valid` and `dirty` flags, and the
`arch_info` pointer to the per-register info block. Null pointers are
`none`. -/
structure Reg where
  feature : Option String
  value : Option Unit
  exist : Bool
  valid : Bool
  dirty : Bool
  arch_info : Option RiscvRegInfo
deriving DecidableEq

/-- The all-zero `struct reg default_reg = {0}` of source line 23: every
pointer null, every flag false. -/
def Reg.default0 : Reg :=
  { feature := none, value := none, exist := false, valid := false,
    dirty := false, arch_info := none }

/-- Source `riscv_reg_impl.h` lines 19-32, function
`riscv_reg_impl_is_initialized`. A failed `assert` aborts the process; this
is modelled by returning `none`, while a normal return of `b` is `some b`.
The asserts are kept in source order: if the feature pointer is null the
whole entry must compare equal to the all-zero default (the `memcmp`
assert) and the entry is not initialized; otherwise `arch_info` and its
`target` must be set, the value buffer must be present exactly when the
register exists, and a dirty entry must be valid. -/
def riscv_reg_impl_is_initialized (reg : Reg) : Option Bool :=
  if reg.feature = none then
    if reg = Reg.default0 then some false else none
  else
    match reg.arch_info with
    | none => none
    | some info =>
      if info.target = none then none
      else if (reg.exist = false ∧ reg.value = none) ∨
              (reg.exist = true ∧ reg.value ≠ none) then
        if reg.valid = true ∨ reg.dirty = false then some true else none
      else none

/-- The five static scalar element types declared at the top of the two
type builders (source lines 62-66 and 162-166): `type_uint8` ..
`type_uint128`. -/
inductive ScalarType where
  | uint8
  | uint16
  | uint32
  | uint64
  | uint128
deriving DecidableEq

/-- Width in bytes of a scalar element type. -/
def ScalarType.bytes : ScalarType → Nat
  | .uint8 => 1
  | .uint16 => 2
  | .uint32 => 4
  | .uint64 => 8
  | .uint128 => 16

/-- A `struct reg_data_type_vector` whose element pointer targets one of the
five static scalar types: the element type and the element count. -/
structure RegDataTypeVectorS where
  type : ScalarType
  count : Nat
deriving DecidableEq

/-- A pointer to one of the five arch-defined per-width vector descriptors
of `riscv_info_t` (`type_uint8_vector` .. `type_uint128_vector`), as stored
in a union field's `type` pointer by the vector builder. -/
inductive VecWrapperRef where
  | bytesV
  | shortsV
  | wordsV
  | longsV
  | quadsV
deriving DecidableEq

/-- A `struct reg_data_type_union_field`: the field name, the `type` pointer
(of reference type `ρ`) and the `next` pointer, modelled as the index of the
next field in the builder's field array (`none` for `NULL`). Unwritten
members keep whatever value the surrounding state held before. -/
structure UnionField (ρ : Type) where
  name : Option String
  type : Option ρ
  next : Option Nat
deriving DecidableEq

/-- Modelled from the spec: the vector-type portion of `riscv_info_t`
(declared in `riscv.h`, outside this subsystem) that
`riscv_reg_impl_init_vector_reg_type` writes: the five per-width
`reg_data_type_vector` members, the id strings of the five arch-defined
wrapper descriptors, the five-entry `vector_fields` array, the union's
`fields` head pointer (index of the first field) and the id of the final
`type_vector` descriptor. -/
structure VecState where
  vector_uint8 : RegDataTypeVectorS
  vector_uint16 : RegDataTypeVectorS
  vector_uint32 : RegDataTypeVectorS
  vector_uint64 : RegDataTypeVectorS
  vector_uint128 : RegDataTypeVectorS
  type_uint8_vector_id : String
  type_uint16_vector_id : String
  type_uint32_vector_id : String
  type_uint64_vector_id : String
  type_uint128_vector_id : String
  field0 : UnionField VecWrapperRef
  field1 : UnionField VecWrapperRef
  field2 : UnionField VecWrapperRef
  field3 : UnionField VecWrapperRef
  field4 : UnionField VecWrapperRef
  union_fields_head : Option Nat
  type_vector_id : String
deriving DecidableEq

/-- Source `riscv_reg_impl.h` lines 59-156, function
`riscv_reg_impl_init_vector_reg_type`: writes the per-width vector
descriptors (counts `vlenb`, `vlenb/2`, `vlenb/4`, `vlenb/8`, `vlenb/16`),
then builds the union's field chain, including the field for a width only
when `riscv_vlenb(target)` reaches that width's byte size, patching the
`next` pointers accordingly (the 8-bit field is unconditional and
`vector_fields[4].next` is finally forced to `NULL`). -/
def riscv_reg_impl_init_vector_reg_type (s0 : VecState) (target : Target) :
    VecState :=
  let s1 : VecState := { s0 with
    vector_uint8 := { type := ScalarType.uint8, count := riscv_vlenb target },
    type_uint8_vector_id := "bytes",
    vector_uint16 := { type := ScalarType.uint16,
                       count := riscv_vlenb target / 2 },
    type_uint16_vector_id := "shorts",
    vector_uint32 := { type := ScalarType.uint32,
                       count := riscv_vlenb target / 4 },
    type_uint32_vector_id := "words",
    vector_uint64 := { type := ScalarType.uint64,
                       count := riscv_vlenb target / 8 },
    type_uint64_vector_id := "longs",
    vector_uint128 := { type := ScalarType.uint128,
                        count := riscv_vlenb target / 16 },
    type_uint128_vector_id := "quads" }
  let s2 := { s1 with
    field0 := { s1.field0 with name := some "b", type := some VecWrapperRef.bytesV } }
  let s3 := if riscv_vlenb target ≥ 2 then
      { s2 with
        field0 := { s2.field0 with next := some 1 },
        field1 := { s2.field1 with name := some "s", type := some VecWrapperRef.shortsV } }
    else
      { s2 with field0 := { s2.field0 with next := none } }
  let s4 := if riscv_vlenb target ≥ 4 then
      { s3 with
        field1 := { s3.field1 with next := some 2 },
        field2 := { s3.field2 with name := some "w", type := some VecWrapperRef.wordsV } }
    else
      { s3 with field1 := { s3.field1 with next := none } }
  let s5 := if riscv_vlenb target ≥ 8 then
      { s4 with
        field2 := { s4.field2 with next := some 3 },
        field3 := { s4.field3 with name := some "l", type := some VecWrapperRef.longsV } }
    else
      { s4 with field2 := { s4.field2 with next := none } }
  let s6 := if riscv_vlenb target ≥ 16 then
      { s5 with
        field3 := { s5.field3 with next := some 4 },
        field4 := { s5.field4 with name := some "q", type := some VecWrapperRef.quadsV } }
    else
      { s5 with field3 := { s5.field3 with next := none } }
  let s7 := { s6 with field4 := { s6.field4 with next := none } }
  let s8 := { s7 with union_fields_head := some 0 }
  { s8 with type_vector_id := "riscv_vector" }

/-- The `vector_fields` array of the state, indexed as in the source. -/
def VecState.fieldAt (s : VecState) : Nat → Option (UnionField VecWrapperRef)
  | 0 => some s.field0
  | 1 => some s.field1
  | 2 => some s.field2
  | 3 => some s.field3
  | 4 => some s.field4
  | _ => none

/-- Dereference a union field's `type` pointer down to the
`reg_data_type_vector` it ultimately describes: the wrapper
`type_uintN_vector` has `reg_type_vector = &vector_uintN`. -/
def VecState.derefVec (s : VecState) : VecWrapperRef → RegDataTypeVectorS
  | .bytesV => s.vector_uint8
  | .shortsV => s.vector_uint16
  | .wordsV => s.vector_uint32
  | .longsV => s.vector_uint64
  | .quadsV => s.vector_uint128

/-- Walk the `next`-linked field chain starting at the given index, with
fuel bounding the walk by the array size. -/
def vecChain (s : VecState) : Nat → Option Nat → List (UnionField VecWrapperRef)
  | _, none => []
  | 0, some _ => []
  | fuel + 1, some i =>
    match s.fieldAt i with
    | none => []
    | some f => f :: vecChain s fuel f.next

/-- The fields of `vector_union` as a consumer observes them: the chain
reachable from the union's `fields` head pointer. -/
def VecState.unionFields (s : VecState) : List (UnionField VecWrapperRef) :=
  vecChain s 5 s.union_fields_head

/-- Observable view of the vector union: for each field in the chain, its
name and the vector descriptor its `type` pointer reaches. -/
def VecState.unionView (s : VecState) :
    List (Option String × Option RegDataTypeVectorS) :=
  s.unionFields.map (fun f => (f.name, f.type.map s.derefVec))

/-- The candidate union fields in ascending width order, as named by the
source: `b`, `s`, `w`, `l`, `q`. -/
def vectorWidthTable : List (String × ScalarType) :=
  [("b", ScalarType.uint8), ("s", ScalarType.uint16),
   ("w", ScalarType.uint32), ("l", ScalarType.uint64),
   ("q", ScalarType.uint128)]

/-- The union view the spec describes for probed vector byte length `L`: one
field per element width whose byte size fits in `L` (the 8-bit field being
unconditional), in ascending width order, of count `L` divided by the
element byte size. -/
def expectedVectorView (L : Nat) :
    List (Option String × Option RegDataTypeVectorS) :=
  (vectorWidthTable.filter
      (fun p => decide (p.2 = ScalarType.uint8 ∨ ScalarType.bytes p.2 ≤ L))).map
    (fun p => (some p.1,
      some { type := p.2, count := L / ScalarType.bytes p.2 }))

/-- An all-default vector-type state: counts zero, ids empty, fields and
pointers null. -/
def vecState0 : VecState :=
  { vector_uint8 := { type := ScalarType.uint8, count := 0 },
    vector_uint16 := { type := ScalarType.uint8, count := 0 },
    vector_uint32 := { type := ScalarType.uint8, count := 0 },
    vector_uint64 := { type := ScalarType.uint8, count := 0 },
    vector_uint128 := { type := ScalarType.uint8, count := 0 },
    type_uint8_vector_id := "",
    type_uint16_vector_id := "",
    type_uint32_vector_id := "",
    type_uint64_vector_id := "",
    type_uint128_vector_id := "",
    field0 := { name := none, type := none, next := none },
    field1 := { name := none, type := none, next := none },
    field2 := { name := none, type := none, next := none },
    field3 := { name := none, type := none, next := none },
    field4 := { name := none, type := none, next := none },
    union_fields_head := none,
    type_vector_id := "" }

/-- A pointer to one of the five inner (row-level) arch-defined descriptors
`type_uintN_matrix_n` of a `struct matrix_reg_type`. -/
inductive MatrixNRef where
  | bytesN
  | shortsN
  | wordsN
  | longsN
  | quadsN
deriving DecidableEq

/-- A pointer to one of the five outer (stack-of-rows) arch-defined
descriptors `type_uintN_matrix_m` of a `struct matrix_reg_type`. -/
inductive MatrixMRef where
  | bytesM
  | shortsM
  | wordsM
  | longsM
  | quadsM
deriving DecidableEq

/-- The outer `reg_data_type_vector` of a matrix width (`matrix_m_uintN`):
its element pointer targets the inner wrapper `type_uintN_matrix_n`, and its
count is the number of rows. -/
structure MatrixMVector where
  type : MatrixNRef
  count : Nat
deriving DecidableEq

/-- Modelled from the spec: `struct matrix_reg_type` (declared in `riscv.h`,
outside this subsystem), holding exactly the members the source writes: for
each element width the inner row vector `matrix_n_uintN`, the id of its
wrapper `type_uintN_matrix_n`, the outer vector `matrix_m_uintN` and the id
of its wrapper `type_uintN_matrix_m`; then the `matrix_fields` array, the
union's `fields` head pointer and the id of the final union descriptor. -/
structure MatrixRegType where
  matrix_n_uint8 : RegDataTypeVectorS
  type_uint8_matrix_n_id : String
  matrix_m_uint8 : MatrixMVector
  type_uint8_matrix_m_id : String
  matrix_n_uint16 : RegDataTypeVectorS
  type_uint16_matrix_n_id : String
  matrix_m_uint16 : MatrixMVector
  type_uint16_matrix_m_id : String
  matrix_n_uint32 : RegDataTypeVectorS
  type_uint32_matrix_n_id : String
  matrix_m_uint32 : MatrixMVector
  type_uint32_matrix_m_id : String
  matrix_n_uint64 : RegDataTypeVectorS
  type_uint64_matrix_n_id : String
  matrix_m_uint64 : MatrixMVector
  type_uint64_matrix_m_id : String
  matrix_n_uint128 : RegDataTypeVectorS
  type_uint128_matrix_n_id : String
  matrix_m_uint128 : MatrixMVector
  type_uint128_matrix_m_id : String
  mfield0 : UnionField MatrixMRef
  mfield1 : UnionField MatrixMRef
  mfield2 : UnionField MatrixMRef
  mfield3 : UnionField MatrixMRef
  mfield4 : UnionField MatrixMRef
  union_fields_head : Option Nat
  type_id : String
deriving DecidableEq

/-- Source `riscv_reg_impl.h` lines 158-271, function
`riscv_reg_impl_init_matrix_reg_type_inner`: for each element width, the
inner row vector gets count `mrlenb * mamul` divided by the element byte
size, and the outer vector gets count `mlenb / mrlenb`; the union field
chain then includes the field for a width only when `mrlenb` reaches that
width's byte size, exactly as in the vector builder. The parameters are
`uint32_t` (source lines 159-160), so the products `mrlenb * mamul` wrap
modulo 2^32, written explicitly as `% 4294967296`; the divisions cannot
overflow. -/
def riscv_reg_impl_init_matrix_reg_type_inner (m0 : MatrixRegType)
    (mlenb mrlenb mamul : Nat) : MatrixRegType :=
  let s1 : MatrixRegType := { m0 with
    matrix_n_uint8 := { type := ScalarType.uint8, count := mrlenb * mamul % 4294967296 },
    type_uint8_matrix_n_id := "bytes",
    matrix_m_uint8 := { type := MatrixNRef.bytesN, count := mlenb / mrlenb },
    type_uint8_matrix_m_id := "vector8",
    matrix_n_uint16 := { type := ScalarType.uint16,
                         count := mrlenb * mamul % 4294967296 / 2 },
    type_uint16_matrix_n_id := "shorts",
    matrix_m_uint16 := { type := MatrixNRef.shortsN,
                         count := mlenb / mrlenb },
    type_uint16_matrix_m_id := "vector16",
    matrix_n_uint32 := { type := ScalarType.uint32,
                         count := mrlenb * mamul % 4294967296 / 4 },
    type_uint32_matrix_n_id := "words",
    matrix_m_uint32 := { type := MatrixNRef.wordsN, count := mlenb / mrlenb },
    type_uint32_matrix_m_id := "vector32",
    matrix_n_uint64 := { type := ScalarType.uint64,
                         count := mrlenb * mamul % 4294967296 / 8 },
    type_uint64_matrix_n_id := "longs",
    matrix_m_uint64 := { type := MatrixNRef.longsN, count := mlenb / mrlenb },
    type_uint64_matrix_m_id := "vector64",
    matrix_n_uint128 := { type := ScalarType.uint128,
                          count := mrlenb * mamul % 4294967296 / 16 },
    type_uint128_matrix_n_id := "quads",
    matrix_m_uint128 := { type := MatrixNRef.quadsN,
                          count := mlenb / mrlenb },
    type_uint128_matrix_m_id := "vector128" }
  let s2 := { s1 with
    mfield0 := { s1.mfield0 with name := some "b", type := some MatrixMRef.bytesM } }
  let s3 := if mrlenb ≥ 2 then
      { s2 with
        mfield0 := { s2.mfield0 with next := some 1 },
        mfield1 := { s2.mfield1 with name := some "s", type := some MatrixMRef.shortsM } }
    else
      { s2 with mfield0 := { s2.mfield0 with next := none } }
  let s4 := if mrlenb ≥ 4 then
      { s3 with
        mfield1 := { s3.mfield1 with next := some 2 },
        mfield2 := { s3.mfield2 with name := some "w", type := some MatrixMRef.wordsM } }
    else
      { s3 with mfield1 := { s3.mfield1 with next := none } }
  let s5 := if mrlenb ≥ 8 then
      { s4 with
        mfield2 := { s4.mfield2 with next := some 3 },
        mfield3 := { s4.mfield3 with name := some "l", type := some MatrixMRef.longsM } }
    else
      { s4 with mfield2 := { s4.mfield2 with next := none } }
  let s6 := if mrlenb ≥ 16 then
      { s5 with
        mfield3 := { s5.mfield3 with next := some 4 },
        mfield4 := { s5.mfield4 with name := some "q", type := some MatrixMRef.quadsM } }
    else
      { s5 with mfield3 := { s5.mfield3 with next := none } }
  let s7 := { s6 with mfield4 := { s6.mfield4 with next := none } }
  let s8 := { s7 with union_fields_head := some 0 }
  { s8 with type_id := "riscv_matrix" }

/-- Modelled from the spec: the matrix-type portion of `riscv_info_t`: the
descriptors of the tile registers and of the accumulator registers. -/
structure RiscvInfo where
  type_m_tile : MatrixRegType
  type_m_acc : MatrixRegType
deriving DecidableEq

/-- Source `riscv_reg_impl.h` lines 273-285, function
`riscv_reg_impl_init_matrix_reg_type`: probe `mlenb`, `mrlenb` and `mamul`;
if `mrlenb` is zero return immediately; otherwise build the tile descriptor
with multiplicity 1 and the accumulator descriptor with multiplicity
`mamul`. -/
def riscv_reg_impl_init_matrix_reg_type (target : Target) (info : RiscvInfo) :
    RiscvInfo :=
  let mlenb := riscv_mlenb target
  let mrlenb := riscv_mrlenb target
  let mamul := riscv_mamul target
  if mrlenb = 0 then
    info
  else
    { info with
      type_m_tile := riscv_reg_impl_init_matrix_reg_type_inner
        info.type_m_tile mlenb mrlenb 1,
      type_m_acc := riscv_reg_impl_init_matrix_reg_type_inner
        info.type_m_acc mlenb mrlenb mamul }

/-- The `matrix_fields` array of a matrix descriptor, indexed as in the
source. -/
def MatrixRegType.fieldAt (m : MatrixRegType) :
    Nat → Option (UnionField MatrixMRef)
  | 0 => some m.mfield0
  | 1 => some m.mfield1
  | 2 => some m.mfield2
  | 3 => some m.mfield3
  | 4 => some m.mfield4
  | _ => none

/-- Dereference an outer wrapper pointer `type_uintN_matrix_m` down to the
outer `reg_data_type_vector` `matrix_m_uintN`. -/
def MatrixRegType.derefM : MatrixRegType → MatrixMRef → MatrixMVector
  | m, .bytesM => m.matrix_m_uint8
  | m, .shortsM => m.matrix_m_uint16
  | m, .wordsM => m.matrix_m_uint32
  | m, .longsM => m.matrix_m_uint64
  | m, .quadsM => m.matrix_m_uint128

/-- Dereference an inner wrapper pointer `type_uintN_matrix_n` down to the
inner row vector `matrix_n_uintN`. -/
def MatrixRegType.derefN : MatrixRegType → MatrixNRef → RegDataTypeVectorS
  | m, .bytesN => m.matrix_n_uint8
  | m, .shortsN => m.matrix_n_uint16
  | m, .wordsN => m.matrix_n_uint32
  | m, .longsN => m.matrix_n_uint64
  | m, .quadsN => m.matrix_n_uint128

/-- Walk the `next`-linked matrix field chain starting at the given index,
with fuel bounding the walk by the array size. -/
def matChain (m : MatrixRegType) :
    Nat → Option Nat → List (UnionField MatrixMRef)
  | _, none => []
  | 0, some _ => []
  | fuel + 1, some i =>
    match m.fieldAt i with
    | none => []
    | some f => f :: matChain m fuel f.next

/-- The fields of `matrix_union` as a consumer observes them. -/
def MatrixRegType.unionFields (m : MatrixRegType) :
    List (UnionField MatrixMRef) :=
  matChain m 5 m.union_fields_head

/-- Observable view of the matrix union: for each field in the chain, its
name, the outer row count, and the inner row vector it reaches through the
two pointer levels. -/
def MatrixRegType.unionView (m : MatrixRegType) :
    List (Option String × Option (Nat × RegDataTypeVectorS)) :=
  m.unionFields.map (fun f =>
    (f.name, f.type.map (fun r =>
      ((m.derefM r).count, m.derefN (m.derefM r).type))))

/-- The union view the spec describes for probed lengths `mlenb`, `mrlenb`
and multiplicity `mamul`: one two-level nested vector per element width
whose byte size fits in `mrlenb`, in ascending width order; the outer count
is `mlenb / mrlenb` and the inner row vector has count `mrlenb * mamul`
divided by the element byte size. This follows the spec's words, with the
product over the mathematical integers; the source computes it in
`uint32_t`, so the two sides agree exactly when the product does not
wrap. -/
def expectedMatrixView (mlenb mrlenb mamul : Nat) :
    List (Option String × Option (Nat × RegDataTypeVectorS)) :=
  (vectorWidthTable.filter
      (fun p => decide (ScalarType.bytes p.2 ≤ mrlenb))).map
    (fun p => (some p.1,
      some (mlenb / mrlenb,
        { type := p.2, count := mrlenb * mamul / ScalarType.bytes p.2 })))

/-- An all-default matrix descriptor: counts zero, ids empty, fields and
pointers null. -/
def matrixRegType0 : MatrixRegType :=
  { matrix_n_uint8 := { type := ScalarType.uint8, count := 0 },
    type_uint8_matrix_n_id := "",
    matrix_m_uint8 := { type := MatrixNRef.bytesN, count := 0 },
    type_uint8_matrix_m_id := "",
    matrix_n_uint16 := { type := ScalarType.uint8, count := 0 },
    type_uint16_matrix_n_id := "",
    matrix_m_uint16 := { type := MatrixNRef.bytesN, count := 0 },
    type_uint16_matrix_m_id := "",
    matrix_n_uint32 := { type := ScalarType.uint8, count := 0 },
    type_uint32_matrix_n_id := "",
    matrix_m_uint32 := { type := MatrixNRef.bytesN, count := 0 },
    type_uint32_matrix_m_id := "",
    matrix_n_uint64 := { type := ScalarType.uint8, count := 0 },
    type_uint64_matrix_n_id := "",
    matrix_m_uint64 := { type := MatrixNRef.bytesN, count := 0 },
    type_uint64_matrix_m_id := "",
    matrix_n_uint128 := { type := ScalarType.uint8, count := 0 },
    type_uint128_matrix_n_id := "",
    matrix_m_uint128 := { type := MatrixNRef.bytesN, count := 0 },
    type_uint128_matrix_m_id := "",
    mfield0 := { name := none, type := none, next := none },
    mfield1 := { name := none, type := none, next := none },
    mfield2 := { name := none, type := none, next := none },
    mfield3 := { name := none, type := none, next := none },
    mfield4 := { name := none, type := none, next := none },
    union_fields_head := none,
    type_id := "" }

/-- An all-default pair of matrix descriptors. -/
def riscvInfo0 : RiscvInfo :=
  { type_m_tile := matrixRegType0, type_m_acc := matrixRegType0 }

/-- Division instrumented with an explicit division-by-zero guard: `none`
exactly when the divisor is zero, i.e. when the corresponding C division
would be undefined behaviour. -/
def checkedDiv (a b : Nat) : Option Nat :=
  if b = 0 then none else some (a / b)

/-- `riscv_reg_impl_init_matrix_reg_type_inner` with every division by
`mrlenb` (the five outer row-count computations `mlenb / mrlenb`) routed
through `checkedDiv`: the result is `none` exactly when one of those
division sites would divide by zero. The divisors 2, 4, 8 and 16 of the
inner counts are non-zero constants, and the products wrap modulo 2^32
exactly as in the plain builder. -/
def riscv_reg_impl_init_matrix_reg_type_inner_checked (m0 : MatrixRegType)
    (mlenb mrlenb mamul : Nat) : Option MatrixRegType := do
  let rows8 ← checkedDiv mlenb mrlenb
  let rows16 ← checkedDiv mlenb mrlenb
  let rows32 ← checkedDiv mlenb mrlenb
  let rows64 ← checkedDiv mlenb mrlenb
  let rows128 ← checkedDiv mlenb mrlenb
  let s1 : MatrixRegType := { m0 with
    matrix_n_uint8 := { type := ScalarType.uint8, count := mrlenb * mamul % 4294967296 },
    type_uint8_matrix_n_id := "bytes",
    matrix_m_uint8 := { type := MatrixNRef.bytesN, count := rows8 },
    type_uint8_matrix_m_id := "vector8",
    matrix_n_uint16 := { type := ScalarType.uint16,
                         count := mrlenb * mamul % 4294967296 / 2 },
    type_uint16_matrix_n_id := "shorts",
    matrix_m_uint16 := { type := MatrixNRef.shortsN, count := rows16 },
    type_uint16_matrix_m_id := "vector16",
    matrix_n_uint32 := { type := ScalarType.uint32,
                         count := mrlenb * mamul % 4294967296 / 4 },
    type_uint32_matrix_n_id := "words",
    matrix_m_uint32 := { type := MatrixNRef.wordsN, count := rows32 },
    type_uint32_matrix_m_id := "vector32",
    matrix_n_uint64 := { type := ScalarType.uint64,
                         count := mrlenb * mamul % 4294967296 / 8 },
    type_uint64_matrix_n_id := "longs",
    matrix_m_uint64 := { type := MatrixNRef.longsN, count := rows64 },
    type_uint64_matrix_m_id := "vector64",
    matrix_n_uint128 := { type := ScalarType.uint128,
                          count := mrlenb * mamul % 4294967296 / 16 },
    type_uint128_matrix_n_id := "quads",
    matrix_m_uint128 := { type := MatrixNRef.quadsN, count := rows128 },
    type_uint128_matrix_m_id := "vector128" }
  let s2 := { s1 with
    mfield0 := { s1.mfield0 with name := some "b", type := some MatrixMRef.bytesM } }
  let s3 := if mrlenb ≥ 2 then
      { s2 with
        mfield0 := { s2.mfield0 with next := some 1 },
        mfield1 := { s2.mfield1 with name := some "s", type := some MatrixMRef.shortsM } }
    else
      { s2 with mfield0 := { s2.mfield0 with next := none } }
  let s4 := if mrlenb ≥ 4 then
      { s3 with
        mfield1 := { s3.mfield1 with next := some 2 },
        mfield2 := { s3.mfield2 with name := some "w", type := some MatrixMRef.wordsM } }
    else
      { s3 with mfield1 := { s3.mfield1 with next := none } }
  let s5 := if mrlenb ≥ 8 then
      { s4 with
        mfield2 := { s4.mfield2 with next := some 3 },
        mfield3 := { s4.mfield3 with name := some "l", type := some MatrixMRef.longsM } }
    else
      { s4 with mfield2 := { s4.mfield2 with next := none } }
  let s6 := if mrlenb ≥ 16 then
      { s5 with
        mfield3 := { s5.mfield3 with next := some 4 },
        mfield4 := { s5.mfield4 with name := some "q", type := some MatrixMRef.quadsM } }
    else
      { s5 with mfield3 := { s5.mfield3 with next := none } }
  let s7 := { s6 with mfield4 := { s6.mfield4 with next := none } }
  let s8 := { s7 with union_fields_head := some 0 }
  some { s8 with type_id := "riscv_matrix" }

/-- `riscv_reg_impl_init_matrix_reg_type` with its two inner calls routed
through the division-instrumented builder: `none` exactly when some
division by `mrlenb` would divide by zero. -/
def riscv_reg_impl_init_matrix_reg_type_checked (target : Target)
    (info : RiscvInfo) : Option RiscvInfo :=
  let mlenb := riscv_mlenb target
  let mrlenb := riscv_mrlenb target
  let mamul := riscv_mamul target
  if mrlenb = 0 then
    some info
  else do
    let tile ← riscv_reg_impl_init_matrix_reg_type_inner_checked
      info.type_m_tile mlenb mrlenb 1
    let acc ← riscv_reg_impl_init_matrix_reg_type_inner_checked
      info.type_m_acc mlenb mrlenb mamul
    some { info with type_m_tile := tile, type_m_acc := acc }

/-- A concrete fully initialized register cache entry. -/
def regInitExample : Reg :=
  { feature := some "org.gnu.gdb.riscv.csr",
    value := some (),
    exist := true,
    valid := true,
    dirty := false,
    arch_info := some { target := some ⟨16, 4, 2, 2⟩ } }
/-- Claim C1: for every WARL CSR in the fixed enumerated stable set,
`riscv_reg_impl_gdb_regno_cacheable` returns false for a write and true for
a read. -/
theorem gdb_regno_cacheable_stable_csr (r : GdbRegno)
    (h : r ∈ riscv_stable_csrs) :
    riscv_reg_impl_gdb_regno_cacheable r true = false ∧
    riscv_reg_impl_gdb_regno_cacheable r false = true := by
  fin_cases h <;> exact ⟨rfl, rfl⟩

/-- Witness for C1 at the CSR mstatus. -/
theorem gdb_regno_cacheable_stable_csr_witness :
    riscv_reg_impl_gdb_regno_cacheable GdbRegno.MSTATUS true = false ∧
    riscv_reg_impl_gdb_regno_cacheable GdbRegno.MSTATUS false = true :=
  gdb_regno_cacheable_stable_csr GdbRegno.MSTATUS (by decide)

/-- Claim C2: for tselect, tdata1, tdata2 and every register number not
otherwise classified by the policy, `riscv_reg_impl_gdb_regno_cacheable`
returns false for both access directions. -/
theorem gdb_regno_cacheable_trigger_and_default (r : GdbRegno) (w : Bool)
    (h : r = GdbRegno.TSELECT ∨ r = GdbRegno.TDATA1 ∨ r = GdbRegno.TDATA2 ∨
         r.isUnclassified = true) :
    riscv_reg_impl_gdb_regno_cacheable r w = false := by
  rcases h with h | h | h | h
  · subst h; cases w <;> rfl
  · subst h; cases w <;> rfl
  · subst h; cases w <;> rfl
  · cases r <;> simp_all [GdbRegno.isUnclassified] <;> cases w <;> rfl

/-- Witness for C2 at tdata1 on a write access. -/
theorem gdb_regno_cacheable_trigger_and_default_witness :
    riscv_reg_impl_gdb_regno_cacheable GdbRegno.TDATA1 true = false :=
  gdb_regno_cacheable_trigger_and_default GdbRegno.TDATA1 true (by decide)

/-- Claim C3: the hard-wired zero register is cacheable for reads and not
for writes. -/
theorem gdb_regno_cacheable_zero :
    riscv_reg_impl_gdb_regno_cacheable GdbRegno.ZERO false = true ∧
    riscv_reg_impl_gdb_regno_cacheable GdbRegno.ZERO true = false := by
  decide

/-- Claim C4: every general-purpose register other than zero, every
floating-point register, every vector data register, and every matrix tile
or accumulator register is cacheable in both directions. -/
theorem gdb_regno_cacheable_plain_data : ∀ (w : Bool),
    (∀ i : Fin 31, riscv_reg_impl_gdb_regno_cacheable (GdbRegno.XPR i) w = true) ∧
    (∀ i : Fin 32, riscv_reg_impl_gdb_regno_cacheable (GdbRegno.FPR i) w = true) ∧
    (∀ i : Fin 32, riscv_reg_impl_gdb_regno_cacheable (GdbRegno.V i) w = true) ∧
    (∀ i : Fin 8, riscv_reg_impl_gdb_regno_cacheable (GdbRegno.TR i) w = true) ∧
    (∀ i : Fin 8, riscv_reg_impl_gdb_regno_cacheable (GdbRegno.ACC i) w = true) := by
  decide

/-- Claim C9: `riscv_reg_impl_is_initialized` returns true only for an entry
satisfying invariant 1 (`exist = false` implies no value buffer, `exist =
true` implies a value buffer) and invariant 2 (dirty implies valid) with its
type descriptor and owning target set; and it returns false only for an
entry in the all-default uninitialized state, so no partially initialized
entry is observable. -/
theorem is_initialized_invariants (reg : Reg) :
    (riscv_reg_impl_is_initialized reg = some true →
      (reg.exist = false → reg.value = none) ∧
      (reg.exist = true → reg.value ≠ none) ∧
      (reg.dirty = true → reg.valid = true) ∧
      reg.feature ≠ none ∧
      (∃ info, reg.arch_info = some info ∧ info.target ≠ none)) ∧
    (riscv_reg_impl_is_initialized reg = some false → reg = Reg.default0) := by
  constructor
  · intro h
    unfold riscv_reg_impl_is_initialized at h
    by_cases hf : reg.feature = none
    · rw [if_pos hf] at h
      split at h <;> simp at h
    · rw [if_neg hf] at h
      cases hai : reg.arch_info with
      | none => rw [hai] at h; simp at h
      | some info =>
        rw [hai] at h
        dsimp only at h
        by_cases ht : info.target = none
        · rw [if_pos ht] at h; simp at h
        · rw [if_neg ht] at h
          by_cases hv : (reg.exist = false ∧ reg.value = none) ∨
              (reg.exist = true ∧ reg.value ≠ none)
          · rw [if_pos hv] at h
            by_cases hvd : reg.valid = true ∨ reg.dirty = false
            · refine ⟨?_, ?_, ?_, hf, info, rfl, ht⟩
              · intro he
                rcases hv with ⟨h1, h2⟩ | ⟨h1, h2⟩
                · exact h2
                · simp [he] at h1
              · intro he
                rcases hv with ⟨h1, h2⟩ | ⟨h1, h2⟩
                · simp [he] at h1
                · exact h2
              · intro hd
                rcases hvd with h1 | h1
                · exact h1
                · simp [hd] at h1
            · rw [if_neg hvd] at h; simp at h
          · rw [if_neg hv] at h; simp at h
  · intro h
    unfold riscv_reg_impl_is_initialized at h
    by_cases hf : reg.feature = none
    · rw [if_pos hf] at h
      by_cases hd : reg = Reg.default0
      · exact hd
      · rw [if_neg hd] at h; simp at h
    · rw [if_neg hf] at h
      cases hai : reg.arch_info with
      | none => rw [hai] at h; simp at h
      | some info =>
        rw [hai] at h
        dsimp only at h
        by_cases ht : info.target = none
        · rw [if_pos ht] at h; simp at h
        · rw [if_neg ht] at h
          by_cases hv : (reg.exist = false ∧ reg.value = none) ∨
              (reg.exist = true ∧ reg.value ≠ none)
          · rw [if_pos hv] at h
            by_cases hvd : reg.valid = true ∨ reg.dirty = false
            · rw [if_pos hvd] at h; simp at h
            · rw [if_neg hvd] at h; simp at h
          · rw [if_neg hv] at h; simp at h

/-- The union view produced by the vector builder equals the spec's filtered
per-width table, for every prior state and probed length. -/
theorem vector_unionView_eq (s0 : VecState) (t : Target) :
    (riscv_reg_impl_init_vector_reg_type s0 t).unionView =
      expectedVectorView (riscv_vlenb t) := by
  obtain ⟨L, ml, mr, ma⟩ := t
  by_cases h2 : 2 ≤ L <;> by_cases h4 : 4 ≤ L <;>
    by_cases h8 : 8 ≤ L <;> by_cases h16 : 16 ≤ L <;>
    first
    | (exfalso; omega)
    | simp [riscv_reg_impl_init_vector_reg_type, VecState.unionView,
        VecState.unionFields, vecChain, VecState.fieldAt, VecState.derefVec,
        expectedVectorView, vectorWidthTable, ScalarType.bytes, riscv_vlenb,
        h2, h4, h8, h16]

/-- Claim C5: for every probed vector byte length, the vector type builder
produces a union whose fields are exactly the per-width vectors named b, s,
w, l, q in ascending width order, containing the field for element width N
bits exactly when N/8 bytes fits in the length (the 8-bit field being
unconditional), each a vector of uintN of count the length divided by N/8;
in particular for length 16 the union is b(16 uint8), s(8 uint16),
w(4 uint32), l(2 uint64), q(1 uint128) with each field chained to the next
and the last field's next pointer absent. -/
theorem init_vector_reg_type_union_spec :
    (∀ (s0 : VecState) (t : Target),
      (riscv_reg_impl_init_vector_reg_type s0 t).unionView =
        expectedVectorView (riscv_vlenb t)) ∧
    (∀ (s0 : VecState) (ml mr ma : Nat),
      (riscv_reg_impl_init_vector_reg_type s0 ⟨16, ml, mr, ma⟩).unionView =
        [(some "b", some { type := ScalarType.uint8, count := 16 }),
         (some "s", some { type := ScalarType.uint16, count := 8 }),
         (some "w", some { type := ScalarType.uint32, count := 4 }),
         (some "l", some { type := ScalarType.uint64, count := 2 }),
         (some "q", some { type := ScalarType.uint128, count := 1 })] ∧
      (riscv_reg_impl_init_vector_reg_type s0 ⟨16, ml, mr, ma⟩).field0.next
        = some 1 ∧
      (riscv_reg_impl_init_vector_reg_type s0 ⟨16, ml, mr, ma⟩).field1.next
        = some 2 ∧
      (riscv_reg_impl_init_vector_reg_type s0 ⟨16, ml, mr, ma⟩).field2.next
        = some 3 ∧
      (riscv_reg_impl_init_vector_reg_type s0 ⟨16, ml, mr, ma⟩).field3.next
        = some 4 ∧
      (riscv_reg_impl_init_vector_reg_type s0 ⟨16, ml, mr, ma⟩).field4.next
        = none) := by
  refine ⟨vector_unionView_eq, fun s0 ml mr ma => ⟨?_, rfl, rfl, rfl, rfl, rfl⟩⟩
  refine (vector_unionView_eq s0 ⟨16, ml, mr, ma⟩).trans ?_
  simp only [riscv_vlenb]
  decide

/-- Claim C6, counterexample: at probed length 4, which is below 8, the
union does not contain only the 8-bit field: it has the b, s and w
fields. -/
theorem init_vector_small_counterexample :
    4 < 8 ∧
    (riscv_reg_impl_init_vector_reg_type vecState0 ⟨4, 0, 0, 0⟩).unionView.map
        Prod.fst = [some "b", some "s", some "w"] := by
  exact ⟨by norm_num, by rfl⟩

/-- Claim C6 as amended: for every probed vector byte length below 2, the
vector type builder produces a union containing only the 8-bit field, of
count the probed length; in particular for length 1 the union contains only
b(1 uint8). -/
theorem init_vector_degenerate (s0 : VecState) (t : Target)
    (h : riscv_vlenb t < 2) :
    (riscv_reg_impl_init_vector_reg_type s0 t).unionView =
      [(some "b", some { type := ScalarType.uint8, count := riscv_vlenb t })] := by
  rw [vector_unionView_eq s0 t]
  obtain ⟨L, ml, mr, ma⟩ := t
  simp only [riscv_vlenb] at h ⊢
  interval_cases L <;> rfl

/-- Witness for the amended C6 at probed length 1. -/
theorem init_vector_degenerate_witness :
    (riscv_reg_impl_init_vector_reg_type vecState0 ⟨1, 0, 0, 0⟩).unionView =
      [(some "b", some { type := ScalarType.uint8, count := 1 })] :=
  init_vector_degenerate vecState0 ⟨1, 0, 0, 0⟩ (by norm_num [riscv_vlenb])

/-- The union view produced by the matrix builder equals the spec's filtered
per-width table of two-level nested vectors, for every prior descriptor and
positive row length, provided the uint32 product of row length and
multiplicity does not wrap. -/
theorem matrix_unionView_eq (m0 : MatrixRegType) (mlenb mrlenb mamul : Nat)
    (h : 0 < mrlenb) (hw : mrlenb * mamul < 4294967296) :
    (riscv_reg_impl_init_matrix_reg_type_inner m0 mlenb mrlenb mamul).unionView
      = expectedMatrixView mlenb mrlenb mamul := by
  have h1 : 1 ≤ mrlenb := h
  by_cases h2 : 2 ≤ mrlenb <;> by_cases h4 : 4 ≤ mrlenb <;>
    by_cases h8 : 8 ≤ mrlenb <;> by_cases h16 : 16 ≤ mrlenb <;>
    first
    | (exfalso; omega)
    | simp [riscv_reg_impl_init_matrix_reg_type_inner,
        MatrixRegType.unionView, MatrixRegType.unionFields, matChain,
        MatrixRegType.fieldAt, MatrixRegType.derefM, MatrixRegType.derefN,
        expectedMatrixView, vectorWidthTable, ScalarType.bytes,
        Nat.mod_eq_of_lt hw, h1, h2, h4, h8, h16]

/-- Claim C7, counterexample: the original claim fails on the code at MLENB
= MRLENB = 2^31, mamul = 2 (all representable uint32 inputs with MRLENB
positive): the uint32 products `mrlenb * mamul` wrap to 0, so every inner
row count the builder stores is 0, while the claimed formula
MRLENB*mamul/(N/8) gives 2^32 and below. -/
theorem init_matrix_reg_type_counterexample :
    0 < (2147483648 : Nat) ∧
    (riscv_reg_impl_init_matrix_reg_type_inner matrixRegType0 2147483648
        2147483648 2).unionView ≠
      expectedMatrixView 2147483648 2147483648 2 := by
  decide

/-- Claim C7 as amended: for every probed MLENB, MRLENB and mamul with
MRLENB positive and the product MRLENB times mamul below 2^32 (so the
uint32 multiplications do not wrap), the matrix builder produces, for each
element width whose byte size fits in MRLENB, a two-level nested vector
with inner count MRLENB times mamul divided by the element byte size and
outer count MLENB divided by MRLENB, unioned in ascending width order keyed
off MRLENB; and the top-level builder constructs the tile descriptor with
multiplicity 1 and the accumulator descriptor with the probed
multiplier. -/
theorem init_matrix_reg_type_spec (m0 : MatrixRegType) (t : Target)
    (info : RiscvInfo) (h : 0 < riscv_mrlenb t)
    (hw : riscv_mrlenb t * riscv_mamul t < 4294967296) :
    (riscv_reg_impl_init_matrix_reg_type_inner m0 (riscv_mlenb t)
        (riscv_mrlenb t) (riscv_mamul t)).unionView =
      expectedMatrixView (riscv_mlenb t) (riscv_mrlenb t) (riscv_mamul t) ∧
    riscv_reg_impl_init_matrix_reg_type t info =
      { info with
        type_m_tile := riscv_reg_impl_init_matrix_reg_type_inner
          info.type_m_tile (riscv_mlenb t) (riscv_mrlenb t) 1,
        type_m_acc := riscv_reg_impl_init_matrix_reg_type_inner
          info.type_m_acc (riscv_mlenb t) (riscv_mrlenb t) (riscv_mamul t) } := by
  refine ⟨matrix_unionView_eq m0 (riscv_mlenb t) (riscv_mrlenb t)
    (riscv_mamul t) h hw, ?_⟩
  unfold riscv_reg_impl_init_matrix_reg_type
  rw [if_neg (by omega)]

/-- Witness for the amended C7 at MLENB 4, MRLENB 2, mamul 2. -/
theorem init_matrix_reg_type_spec_witness :
    (riscv_reg_impl_init_matrix_reg_type_inner matrixRegType0 4 2 2).unionView
      = expectedMatrixView 4 2 2 ∧
    riscv_reg_impl_init_matrix_reg_type ⟨16, 4, 2, 2⟩ riscvInfo0 =
      { riscvInfo0 with
        type_m_tile := riscv_reg_impl_init_matrix_reg_type_inner
          riscvInfo0.type_m_tile 4 2 1,
        type_m_acc := riscv_reg_impl_init_matrix_reg_type_inner
          riscvInfo0.type_m_acc 4 2 2 } :=
  init_matrix_reg_type_spec matrixRegType0 ⟨16, 4, 2, 2⟩ riscvInfo0
    (by decide) (by decide)

/-- Claim C8: when the probed MRLENB is zero, the matrix builder returns
without constructing anything: the tile and accumulator descriptor state is
left entirely unchanged. -/
theorem init_matrix_reg_type_noop (t : Target) (info : RiscvInfo)
    (h : riscv_mrlenb t = 0) :
    riscv_reg_impl_init_matrix_reg_type t info = info := by
  unfold riscv_reg_impl_init_matrix_reg_type
  rw [if_pos h]

/-- Witness for C8 at a target whose probed MRLENB is zero. -/
theorem init_matrix_reg_type_noop_witness :
    riscv_reg_impl_init_matrix_reg_type ⟨16, 4, 0, 1⟩ riscvInfo0 =
      riscvInfo0 :=
  init_matrix_reg_type_noop ⟨16, 4, 0, 1⟩ riscvInfo0 rfl

/-- Claim C10: with every division by MRLENB instrumented by a
division-by-zero guard, the top-level matrix builder never reaches a
division by zero under any input: the early return on MRLENB zero protects
every division site, so the instrumented builder always succeeds and agrees
with the plain one. -/
theorem init_matrix_reg_type_total (t : Target) (info : RiscvInfo) :
    riscv_reg_impl_init_matrix_reg_type_checked t info =
      some (riscv_reg_impl_init_matrix_reg_type t info) := by
  by_cases h : riscv_mrlenb t = 0
  · unfold riscv_reg_impl_init_matrix_reg_type_checked
      riscv_reg_impl_init_matrix_reg_type
    rw [if_pos h, if_pos h]
  · have hinner : ∀ (m0 : MatrixRegType) (mam : Nat),
        riscv_reg_impl_init_matrix_reg_type_inner_checked m0 (riscv_mlenb t)
            (riscv_mrlenb t) mam =
          some (riscv_reg_impl_init_matrix_reg_type_inner m0 (riscv_mlenb t)
            (riscv_mrlenb t) mam) := by
      intro m0 mam
      unfold riscv_reg_impl_init_matrix_reg_type_inner_checked
        riscv_reg_impl_init_matrix_reg_type_inner checkedDiv
      rw [if_neg h]
      rfl
    unfold riscv_reg_impl_init_matrix_reg_type_checked
      riscv_reg_impl_init_matrix_reg_type
    rw [if_neg h, if_neg h, hinner, hinner]
    rfl

/-- Witness for C9: the initialization invariants at a concrete fully
initialized entry. -/
theorem is_initialized_invariants_witness :
    (regInitExample.exist = false → regInitExample.value = none) ∧
    (regInitExample.exist = true → regInitExample.value ≠ none) ∧
    (regInitExample.dirty = true → regInitExample.valid = true) ∧
    regInitExample.feature ≠ none ∧
    (∃ info, regInitExample.arch_info = some info ∧ info.target ≠ none) :=
  (is_initialized_invariants regInitExample).1 (by decide)
